import Mathlib

/-!
Verification of the Maya_Tools rig-handling scripts against their
natural-language specification.

The repository is a set of Maya scene scripts.  All interaction with the
host scene graph goes through a small set of query primitives
(`objExists`, `listConnections`, `listRelatives`, ...).  We embed those
primitives as a record of functions (`Scene`), so that each script
routine becomes a pure Lean function of the facade plus its inputs, and
side effects (`select`, `createNode`, namespace merges, FBX commands)
become explicit traces.

Sources embedded:
  - src/modules/anim/AnimExporter.py            (class AnimOpsExportPrep)
  - src/modules/rig/character_rig_handler.py    (class MayaRigHandler)
  - src/modules/rig/character_rig_template.py   (CharacterTemplate)

Modelling conventions:
  - Maya commands that return either a list or None (`listConnections`,
    `listRelatives`) are embedded as `Option (List String)`; the Python
    idiom `x or []` becomes `Option.getD [] `.
  - Python `list(set(xs))` enumerates the distinct elements of `xs` in an
    unspecified order; it is embedded as `List.dedup` (one admissible
    enumeration).  No claim below depends on which enumeration is used.
  - Only the `print` messages that report a missing node or a failure
    ("Warning: ...", "Could not merge namespace ...") are recorded, as a
    `warnings`/`failures` list; quote characters around interpolated names
    in those messages are elided.  Informational prints are not modelled.
-/

namespace MayaTools

/-- The host scene-graph facade: each field embeds one Maya query used by
the scripts.  `objExists` is `cmds.objExists`; `listConnections` is the
untyped `cmds.listConnections(node)`; `listConnectionsJoint` is
`cmds.listConnections(node, type="joint")`; `childrenJoint` is
`cmds.listRelatives(node, children=True, type="joint")`; `descJoints` and
`descMeshes` are `cmds.listRelatives(node, allDescendents=True, type=...)`
for types "joint" and "mesh"; `parentOf` is
`cmds.listRelatives(node, parent=True)` and `parentJoint` the same with
`type="joint"`.  A `none` result models Maya returning `None`. -/
structure Scene where
  objExists : String → Bool
  listConnections : String → Option (List String)
  listConnectionsJoint : String → Option (List String)
  childrenJoint : String → Option (List String)
  descJoints : String → Option (List String)
  descMeshes : String → Option (List String)
  parentOf : String → Option (List String)
  parentJoint : String → Option (List String)

/-- A scene-graph side effect performed by the scripts.  The embedded
routines only ever emit `select` (from `cmds.select`) and `createNode`
(from `cmds.createNode`); the other constructors exist so that the
absence of such mutations is expressible. -/
inductive Effect where
  | select (nodes : List String)
  | createNode (kind : String) (nodeName : String) (par : Option String)
  | deleteNode (nodeName : String)
  | reparent (child : String) (par : Option String)
  | mergeNamespace (ns : String)
  deriving DecidableEq, Repr

/-- The observable outcome of one `_process_rig` call: the three selection
lists built by the method (`self.skl_sel`, `self.geo_sel`,
`self.final_sel`), its boolean return value, the scene-graph effects it
performed in order, and the warning messages it printed. -/
structure ProcResult where
  skl_sel : List String
  geo_sel : List String
  final_sel : List String
  ok : Bool
  trace : List Effect
  warnings : List String
  deriving DecidableEq, Repr

/-- Python `s.endswith(suffix)`, on the underlying character sequences. -/
def pyEndsWith (s suffix : String) : Bool :=
  suffix.data.isSuffixOf s.data

/-- AnimExporter.py `_find_rigs` (lines 25-36): keep the transforms whose
name equals "rig" or ends with "_rig". -/
def find_rigs_anim (all_transforms : List String) : List String :=
  all_transforms.filter fun t => t == "rig" || pyEndsWith t "_rig"

/-- character_rig_handler.py `_find_rigs` (lines 448-462): keep the
transforms whose name equals "rig", ends with "_rig", or equals "RIG". -/
def find_rigs_handler (all_transforms : List String) : List String :=
  all_transforms.filter fun t => t == "rig" || pyEndsWith t "_rig" || t == "RIG"

/-! ## MayaRigHandler._process_rig (character_rig_handler.py lines 528-626) -/

/-- The skeleton layer name: `{rig_name}_Skeleton` if it exists, else the
stripped fallback `"_Skeleton"` (lines 540-545). -/
def handlerSklLayer (s : Scene) (rig_name : String) : String :=
  if s.objExists (rig_name ++ "_Skeleton") then rig_name ++ "_Skeleton" else "_Skeleton"

/-- The geometry layer name: `{rig_name}_Meshes` if it exists, else the
stripped fallback `"_Meshes"` (lines 541-548). -/
def handlerGeoLayer (s : Scene) (rig_name : String) : String :=
  if s.objExists (rig_name ++ "_Meshes") then rig_name ++ "_Meshes" else "_Meshes"

/-- Skeleton resolution of MayaRigHandler._process_rig (lines 550-578):
if the layer exists, the first joint-typed connection; else if the
`{rig_name}_Skeleton` group exists, its first joint child; else the first
entry of the reversed descendant-joint listing that has no joint parent. -/
def handler_root_joint (s : Scene) (rig_name : String) : Option String :=
  if s.objExists (handlerSklLayer s rig_name) then
    ((s.listConnectionsJoint (handlerSklLayer s rig_name)).getD []).head?
  else if s.objExists (rig_name ++ "_Skeleton") then
    ((s.childrenJoint (rig_name ++ "_Skeleton")).getD []).head?
  else
    (((s.descJoints rig_name).getD []).reverse).find?
      fun jnt => ((s.parentJoint jnt).getD []).isEmpty

/-- `self.skl_sel` after the skeleton section (lines 580-583): the root
joint as a singleton list, or empty. -/
def handler_skl_sel (s : Scene) (rig_name : String) : List String :=
  match handler_root_joint s rig_name with
  | some j => [j]
  | none => []

/-- Geometry resolution of MayaRigHandler._process_rig (lines 585-615):
the layer-connection branch keeps `connections[1:]` verbatim; the
ExportMeshes branch and the full-hierarchy fallback map each mesh shape
to its first parent (skipping shapes without parents) and deduplicate
via `list(set(...))`. -/
def handler_geo_sel (s : Scene) (rig_name : String) : List String :=
  if s.objExists (handlerGeoLayer s rig_name) then
    let connections := (s.listConnections (handlerGeoLayer s rig_name)).getD []
    if 1 < connections.length then connections.tail else []
  else if s.objExists (rig_name ++ "_Meshes_ExportMeshes") then
    let potential_geo := (s.descMeshes (rig_name ++ "_Meshes_ExportMeshes")).getD []
    if potential_geo.isEmpty then []
    else (potential_geo.filterMap fun geo => ((s.parentOf geo).getD []).head?).dedup
  else
    let potential_geo := (s.descMeshes rig_name).getD []
    if potential_geo.isEmpty then []
    else (potential_geo.filterMap fun geo => ((s.parentOf geo).getD []).head?).dedup

/-- The warning prints of the discovery sections of
MayaRigHandler._process_rig, in print order (lines 559, 583, 591). -/
def handler_disc_warnings (s : Scene) (rig_name : String) : List String :=
  (if s.objExists (handlerSklLayer s rig_name) then []
   else ["Warning: " ++ handlerSklLayer s rig_name ++ " not found for rig " ++ rig_name]) ++
  (if (handler_root_joint s rig_name).isSome then []
   else ["Warning: No root joint found for " ++ rig_name]) ++
  (if s.objExists (handlerGeoLayer s rig_name) then []
   else ["Warning: " ++ handlerGeoLayer s rig_name ++ " not found for rig " ++ rig_name])

/-- MayaRigHandler._process_rig (lines 528-626).  Combines the geometry
and skeleton selections, selects them when non-empty and returns True,
else prints a final warning and returns False.  The discovery sections of
this variant perform no scene-graph effect at all; the only effect is the
final `cmds.select(self.final_sel)` (line 622). -/
def process_rig_handler (s : Scene) (rig_name : String) : ProcResult :=
  if (handler_geo_sel s rig_name ++ handler_skl_sel s rig_name).isEmpty then
    { skl_sel := handler_skl_sel s rig_name
      geo_sel := handler_geo_sel s rig_name
      final_sel := handler_geo_sel s rig_name ++ handler_skl_sel s rig_name
      ok := false
      trace := []
      warnings := handler_disc_warnings s rig_name ++
        ["Warning: No objects found to select for " ++ rig_name] }
  else
    { skl_sel := handler_skl_sel s rig_name
      geo_sel := handler_geo_sel s rig_name
      final_sel := handler_geo_sel s rig_name ++ handler_skl_sel s rig_name
      ok := true
      trace := [Effect.select (handler_geo_sel s rig_name ++ handler_skl_sel s rig_name)]
      warnings := handler_disc_warnings s rig_name }

/-! ## AnimOpsExportPrep._process_rig (AnimExporter.py lines 52-116) -/

/-- The skeleton layer name of the AnimExporter variant:
`{rig_name}:SKL_lyr` if it exists, else `"SKL_lyr"` (lines 64-69). -/
def anim_skl_layer (s : Scene) (rig_name : String) : String :=
  if s.objExists (rig_name ++ ":SKL_lyr") then rig_name ++ ":SKL_lyr" else "SKL_lyr"

/-- The geometry layer name of the AnimExporter variant:
`{rig_name}:GEO_lyr` if it exists, else `"GEO_lyr"` (lines 65-72). -/
def anim_geo_layer (s : Scene) (rig_name : String) : String :=
  if s.objExists (rig_name ++ ":GEO_lyr") then rig_name ++ ":GEO_lyr" else "GEO_lyr"

/-- Skeleton section of AnimOpsExportPrep._process_rig (lines 74-87): if
the layer exists, `connections[1:]` of the untyped connection listing;
else the whole descendant-joint listing (no root selection). -/
def anim_skl_sel (s : Scene) (rig_name : String) : List String :=
  if s.objExists (anim_skl_layer s rig_name) then
    let connections := (s.listConnections (anim_skl_layer s rig_name)).getD []
    if 1 < connections.length then connections.tail else []
  else
    (s.descJoints rig_name).getD []

/-- The list comprehension of AnimExporter.py line 102:
`[mc.listRelatives(geo, parent=True)[0] for geo in potential_geo]`.
The subscript is unguarded, so a shape with no parent raises; that raise
is modelled as `none`. -/
def anim_parent_heads (s : Scene) : List String → Option (List String)
  | [] => some []
  | geo :: rest =>
    match (s.parentOf geo).bind List.head? with
    | none => none
    | some p => (anim_parent_heads s rest).map fun ts => p :: ts

/-- Geometry section of AnimOpsExportPrep._process_rig (lines 89-104):
if the layer exists, `connections[1:]` verbatim; else map the descendant
mesh shapes to their parents (raising on a parentless shape) and
deduplicate via `list(set(...))`. -/
def anim_geo_sel (s : Scene) (rig_name : String) : Except String (List String) :=
  if s.objExists (anim_geo_layer s rig_name) then
    let connections := (s.listConnections (anim_geo_layer s rig_name)).getD []
    Except.ok (if 1 < connections.length then connections.tail else [])
  else
    let potential_geo := (s.descMeshes rig_name).getD []
    if potential_geo.isEmpty then Except.ok []
    else
      match anim_parent_heads s potential_geo with
      | some geo_transforms => Except.ok geo_transforms.dedup
      | none => Except.error "TypeError: NoneType object is not subscriptable"

/-- The scene-graph effects of the discovery sections of
AnimOpsExportPrep._process_rig: `mc.select(skl_layer)` (line 76) and
`mc.select(geo_layer)` (line 91), each issued when that layer exists. -/
def anim_disc_trace (s : Scene) (rig_name : String) : List Effect :=
  (if s.objExists (anim_skl_layer s rig_name) then
    [Effect.select [anim_skl_layer s rig_name]] else []) ++
  (if s.objExists (anim_geo_layer s rig_name) then
    [Effect.select [anim_geo_layer s rig_name]] else [])

/-- The warning prints of the discovery sections of
AnimOpsExportPrep._process_rig (lines 81, 96). -/
def anim_warnings (s : Scene) (rig_name : String) : List String :=
  (if s.objExists (anim_skl_layer s rig_name) then []
   else ["Warning: " ++ anim_skl_layer s rig_name ++ " not found for rig " ++ rig_name]) ++
  (if s.objExists (anim_geo_layer s rig_name) then []
   else ["Warning: " ++ anim_geo_layer s rig_name ++ " not found for rig " ++ rig_name])

/-- AnimOpsExportPrep._process_rig (lines 52-116).  An uncaught Python
exception (the unguarded subscript of line 102) is modelled as
`Except.error`; on that path the partial effect trace is dropped, which
no statement below relies on. -/
def process_rig_anim (s : Scene) (rig_name : String) : Except String ProcResult :=
  match anim_geo_sel s rig_name with
  | Except.error e => Except.error e
  | Except.ok geo_sel =>
    let skl_sel := anim_skl_sel s rig_name
    if (geo_sel ++ skl_sel).isEmpty then
      Except.ok
        { skl_sel := skl_sel
          geo_sel := geo_sel
          final_sel := geo_sel ++ skl_sel
          ok := false
          trace := anim_disc_trace s rig_name
          warnings := anim_warnings s rig_name ++
            ["Warning: No objects found to select for " ++ rig_name] }
    else
      Except.ok
        { skl_sel := skl_sel
          geo_sel := geo_sel
          final_sel := geo_sel ++ skl_sel
          ok := true
          trace := anim_disc_trace s rig_name ++ [Effect.select (geo_sel ++ skl_sel)]
          warnings := anim_warnings s rig_name }

/-! ## Namespace normalization (_manage_namespaces, identical in
AnimExporter.py lines 38-50 and character_rig_handler.py lines 475-487) -/

/-- The outcome of `_manage_namespaces`: the namespaces for which a merge
was attempted, in loop order, and the failure messages printed for
merges that raised. -/
structure NsResult where
  attempted : List String
  failures : List String
  deriving DecidableEq, Repr

/-- `_manage_namespaces`: for each listed namespace not among the default
namespaces ["UI", "shared"], attempt
`namespace(removeNamespace=ns, mergeNamespaceWithParent=True)`; an
exception is caught and printed and the loop continues.  The behaviour of
the host merge call is an input (`merge`). -/
def manage_namespaces (merge : String → Except String Unit) :
    List String → NsResult
  | [] => { attempted := [], failures := [] }
  | ns :: rest =>
    if ns == "UI" || ns == "shared" then
      manage_namespaces merge rest
    else
      match merge ns with
      | Except.ok _ =>
        let r := manage_namespaces merge rest
        { attempted := ns :: r.attempted, failures := r.failures }
      | Except.error e =>
        let r := manage_namespaces merge rest
        { attempted := ns :: r.attempted
          failures := ("Could not merge namespace " ++ ns ++ ": " ++ e) :: r.failures }

/-! ## Template construction -/

/-- MayaRigHandler._create_character_template (character_rig_handler.py
lines 265-310), as the ordered list of `cmds.createNode` calls it issues.
An empty name field returns early with a warning dialog and creates
nothing. -/
def create_character_template (rig_name : String) : List Effect :=
  if rig_name = "" then []
  else
    [Effect.createNode "transform" (rig_name ++ "_rig") none,
     Effect.createNode "transform" (rig_name ++ "_Controls") (some (rig_name ++ "_rig")),
     Effect.createNode "transform" (rig_name ++ "_Meshes") (some (rig_name ++ "_rig")),
     Effect.createNode "transform" (rig_name ++ "_ExportMeshes") (some (rig_name ++ "_Meshes")),
     Effect.createNode "transform" (rig_name ++ "_bak") (some (rig_name ++ "_Meshes")),
     Effect.createNode "transform" (rig_name ++ "_Skeleton") (some (rig_name ++ "_rig"))]

/-- character_rig_template.py CharacterTemplate (lines 6-26): the fixed
hierarchy it creates, root named "RIG" with unprefixed children. -/
def CharacterTemplate : List Effect :=
  [Effect.createNode "transform" "RIG" none,
   Effect.createNode "transform" "Controls" (some "RIG"),
   Effect.createNode "transform" "Meshes" (some "RIG"),
   Effect.createNode "transform" "ExportMeshes" (some "Meshes"),
   Effect.createNode "transform" "bak" (some "Meshes"),
   Effect.createNode "transform" "Skeleton" (some "RIG")]

/-! ## FBX export (_export_rig, character_rig_handler.py lines 379-437) -/

/-- One step of the export routine after the rig query: the
`cmds.parent(world=True)` reparent, one `FBXExport...` mel option
assignment, or the final `cmds.file(...)` write. -/
inductive ExportStep where
  | parentToWorld
  | setOption (optionName : String) (value : String)
  | writeFile (path : String) (force : Bool) (exportSelected : Bool)
  deriving DecidableEq, Repr

/-- The mel `FBXExport... -v ...` assignments issued by `_export_rig`, in
source order (lines 389-426). -/
def fbx_export_options : List (String × String) :=
  [("FBXExportBakeComplexAnimation", "true"),
   ("FBXExportBakeComplexStart", "1"),
   ("FBXExportBakeComplexEnd", "60"),
   ("FBXExportBakeResampleAnimation", "true"),
   ("FBXExportBakeComplexStep", "1"),
   ("FBXExportUseSceneName", "false"),
   ("FBXExportAnimationOnly", "false"),
   ("FBXExportApplyConstantKeyReducer", "false"),
   ("FBXExportSmoothingGroups", "true"),
   ("FBXExportSmoothMesh", "true"),
   ("FBXExportHardEdges", "false"),
   ("FBXExportTriangulate", "false"),
   ("FBXExportTangents", "true"),
   ("FBXExportSkins", "true"),
   ("FBXExportInputConnections", "false"),
   ("FBXExportConstraints", "false"),
   ("FBXExportCameras", "false"),
   ("FBXExportLights", "false"),
   ("FBXExportEmbeddedTextures", "false"),
   ("FBXExportInstances", "false"),
   ("FBXExportReferencedAssetsContent", "false"),
   ("FBXExportGenerateLog", "true"),
   ("FBXExportFileVersion", "FBX202000"),
   ("FBXExportInAscii", "false")]

/-- MayaRigHandler._export_rig (lines 379-437), as the list of export
steps issued after `_query_rig_for_export` returns.  The code is a fixed
straight-line sequence: it does not read the scene or the selected rigs
when building the option block or the output path, which is why the
parameters are unused. -/
def export_rig (s : Scene) (selected_rigs : List String) : List ExportStep :=
  ExportStep.parentToWorld ::
    (fbx_export_options.map fun p => ExportStep.setOption p.1 p.2) ++
    [ExportStep.writeFile "C:/dropbox/your_file.fbx" true true]

/-! ## MayaRigHandler._create_rig (character_rig_handler.py lines 312-377) -/

/-- Every attribute assigned on `self` anywhere in class MayaRigHandler
(collected from `self.<name> = ...` statements in `__init__`,
`create_ui`, `create_rig_tab`, `create_export_tab` and
`_create_character_template`).  Reading any other attribute raises
AttributeError. -/
def mayaRigHandlerAttrs : List String :=
  ["skl_sel", "geo_sel", "final_sel", "rigs",
   "tab_widget", "name_field", "template_list",
   "add_controls_cb", "setup_constraints_cb", "rig_status_label",
   "rig_list", "namespace_cb", "status_label", "rig_node"]

/-- The outcome of a `_create_rig` call: an early return behind a warning
dialog, an uncaught AttributeError from reading an attribute that is not
in the instance, or normal completion with the new rig name. -/
inductive CreateRigOutcome where
  | warnDialog (msg : String)
  | attributeError (attr : String)
  | completed (rig_name : String)
  deriving DecidableEq, Repr

/-- MayaRigHandler._create_rig (lines 312-377), over the attribute set
`attrs` of the instance.  Source order: the empty-selection guard (line
318), then the `self.rig_name.text()` reads (lines 327-328) which raise
AttributeError when `"rig_name"` is not an instance attribute, then the
empty-name guard, the `_rig` suffixing, the duplicate-name check against
`objExists` (line 339), and finally the body ending in
`cmds.select(rig_name)` (line 372). -/
def create_rig_handler (attrs : List String) (selected_items : List String)
    (name_field_text : String) (objExists : String → Bool) :
    CreateRigOutcome × List Effect :=
  if selected_items.isEmpty then
    (CreateRigOutcome.warnDialog "Please select a rig from the list.", [])
  else if "rig_name" ∈ attrs then
    if name_field_text = "" then
      (CreateRigOutcome.warnDialog "Please enter a name for the new rig.", [])
    else
      let rig_name :=
        if pyEndsWith name_field_text "_rig" then name_field_text
        else name_field_text ++ "_rig"
      if objExists rig_name then
        (CreateRigOutcome.warnDialog
          ("A rig named " ++ rig_name ++ " already exists. Please choose a different name."), [])
      else
        (CreateRigOutcome.completed rig_name, [Effect.select [rig_name]])
  else
    (CreateRigOutcome.attributeError "rig_name", [])

/-! ## General lemmas -/

/-- `List.find?` returns the unique satisfier of its predicate when there
is exactly one in the list. -/
theorem find_eq_of_unique {α : Type} (p : α → Bool) (j : α) :
    ∀ l : List α, j ∈ l → p j = true → (∀ x ∈ l, p x = true → x = j) →
      l.find? p = some j := by
  intro l
  induction l with
  | nil => intro h; cases h
  | cons a t ih =>
    intro hmem hj huniq
    by_cases ha : p a = true
    · have haj : a = j := huniq a (List.mem_cons_self a t) ha
      rw [List.find?_cons_of_pos _ ha, haj]
    · have ha2 : p a = false := by simpa using ha
      have hmem2 : j ∈ t := by
        rcases List.mem_cons.mp hmem with h | h
        · exact absurd (h ▸ hj) (by simp [ha2])
        · exact h
      rw [List.find?_cons_of_neg _ (by simp [ha2])]
      exact ih hmem2 hj fun x hx hpx => huniq x (List.mem_cons_of_mem a hx) hpx

/-- The `skl_sel` field of a handler `_process_rig` run is the skeleton
section result, in both return branches. -/
theorem process_rig_handler_skl (s : Scene) (rig_name : String) :
    (process_rig_handler s rig_name).skl_sel = handler_skl_sel s rig_name := by
  unfold process_rig_handler
  split <;> rfl

/-- The `geo_sel` field of a handler `_process_rig` run is the geometry
section result, in both return branches. -/
theorem process_rig_handler_geo (s : Scene) (rig_name : String) :
    (process_rig_handler s rig_name).geo_sel = handler_geo_sel s rig_name := by
  unfold process_rig_handler
  split <;> rfl

/-- The `final_sel` field of a handler `_process_rig` run is the geometry
selection followed by the skeleton selection. -/
theorem process_rig_handler_final (s : Scene) (rig_name : String) :
    (process_rig_handler s rig_name).final_sel =
      handler_geo_sel s rig_name ++ handler_skl_sel s rig_name := by
  unfold process_rig_handler
  split <;> rfl

/-! ## Claim theorems -/

/-- Claim C2, counterexample: the AnimExporter `_find_rigs` variant has
no "RIG" case, so on the scene whose only transform is "RIG" its result
does not contain "RIG", although the claimed naming predicate holds. -/
theorem c2_find_rigs_counterexample :
    ¬ (("RIG" : String) ∈ find_rigs_anim ["RIG"] ↔
        ("RIG" : String) ∈ (["RIG"] : List String) ∧
          ("RIG" = "rig" ∨ "RIG" = "RIG" ∨ pyEndsWith "RIG" "_rig" = true)) := by
  decide

/-- Claim C2 as amended: the MayaRigHandler `_find_rigs` keeps exactly
the transforms equal to "rig" or "RIG" or ending with "_rig"; the
AnimExporter variant keeps exactly those equal to "rig" or ending with
"_rig" (no "RIG" case). -/
theorem c2_find_rigs_amended (ts : List String) (t : String) :
    (t ∈ find_rigs_handler ts ↔
      t ∈ ts ∧ (t = "rig" ∨ pyEndsWith t "_rig" = true ∨ t = "RIG")) ∧
    (t ∈ find_rigs_anim ts ↔
      t ∈ ts ∧ (t = "rig" ∨ pyEndsWith t "_rig" = true)) := by
  constructor <;>
    simp [find_rigs_handler, find_rigs_anim, List.mem_filter, or_assoc]

/-- Claim C3: evaluating `_create_character_template` at base name "Hero"
shows the child nodes are created with the base-name prefix
(Hero_Controls, Hero_Meshes, Hero_ExportMeshes, Hero_bak, Hero_Skeleton)
rather than the unprefixed names the class's own help text documents; in
particular no node named "Controls" is created.  The separate
CharacterTemplate script creates the unprefixed children, but under a
fixed root named "RIG". -/
theorem c3_template_eval :
    create_character_template "Hero" =
      [Effect.createNode "transform" "Hero_rig" none,
       Effect.createNode "transform" "Hero_Controls" (some "Hero_rig"),
       Effect.createNode "transform" "Hero_Meshes" (some "Hero_rig"),
       Effect.createNode "transform" "Hero_ExportMeshes" (some "Hero_Meshes"),
       Effect.createNode "transform" "Hero_bak" (some "Hero_Meshes"),
       Effect.createNode "transform" "Hero_Skeleton" (some "Hero_rig")] ∧
    Effect.createNode "transform" "Controls" (some "Hero_rig") ∉
      create_character_template "Hero" ∧
    CharacterTemplate =
      [Effect.createNode "transform" "RIG" none,
       Effect.createNode "transform" "Controls" (some "RIG"),
       Effect.createNode "transform" "Meshes" (some "RIG"),
       Effect.createNode "transform" "ExportMeshes" (some "Meshes"),
       Effect.createNode "transform" "bak" (some "Meshes"),
       Effect.createNode "transform" "Skeleton" (some "RIG")] := by
  refine ⟨by decide, by decide, rfl⟩

/-- The attempted-merge list of `_manage_namespaces` is exactly the
input filtered outside the default namespaces, whatever the merge call
does. -/
theorem manage_ns_attempted (merge : String → Except String Unit) :
    ∀ l, (manage_namespaces merge l).attempted =
      l.filter fun ns => !(ns == "UI" || ns == "shared") := by
  intro l
  induction l with
  | nil => rfl
  | cons a rest ih =>
    by_cases hu : a = "UI"
    · subst hu; simp [manage_namespaces, ih, List.filter_cons]
    · by_cases hs : a = "shared"
      · subst hs; simp [manage_namespaces, ih, List.filter_cons]
      · have hb : (a == "UI" || a == "shared") = false := by
          simp [beq_iff_eq, hu, hs]
        cases hma : merge a with
        | error e0 => simp [manage_namespaces, hb, hma, ih, List.filter_cons, hu, hs]
        | ok v => simp [manage_namespaces, hb, hma, ih, List.filter_cons, hu, hs]

/-- Every merge failure of `_manage_namespaces` on a non-default
namespace is caught and logged. -/
theorem manage_ns_failures (merge : String → Except String Unit) :
    ∀ l ns e, ns ∈ l → ¬(ns = "UI" ∨ ns = "shared") →
      merge ns = Except.error e →
      ("Could not merge namespace " ++ ns ++ ": " ++ e) ∈
        (manage_namespaces merge l).failures := by
  intro l
  induction l with
  | nil => intro ns e h; cases h
  | cons a rest ih =>
    intro ns e hmem hns hme
    by_cases hu : a = "UI"
    · subst hu
      have h2 : ns ∈ rest := by
        rcases List.mem_cons.mp hmem with h | h
        · exact absurd (Or.inl h) hns
        · exact h
      simpa [manage_namespaces] using ih ns e h2 hns hme
    · by_cases hs : a = "shared"
      · subst hs
        have h2 : ns ∈ rest := by
          rcases List.mem_cons.mp hmem with h | h
          · exact absurd (Or.inr h) hns
          · exact h
        simpa [manage_namespaces] using ih ns e h2 hns hme
      · have hb : (a == "UI" || a == "shared") = false := by
          simp [beq_iff_eq, hu, hs]
        rcases List.mem_cons.mp hmem with h | h
        · subst h
          simp [manage_namespaces, hb, hme]
        · cases hma : merge a with
          | error e0 =>
            have hrec := ih ns e h hns hme
            simp only [manage_namespaces, hb, Bool.false_eq_true, if_false, hma]
            exact List.mem_cons_of_mem _ hrec
          | ok v =>
            have hrec := ih ns e h hns hme
            simpa [manage_namespaces, hb, hma] using hrec

/-- Claim C7: `_manage_namespaces` attempts a merge for exactly the
listed namespaces outside ["UI", "shared"], in order and independently of
which merges fail ("UI" and "shared" are never touched), and every merge
failure is caught and logged. -/
theorem c7_manage_namespaces (merge : String → Except String Unit)
    (namespaces : List String) :
    (manage_namespaces merge namespaces).attempted =
      namespaces.filter (fun ns => !(ns == "UI" || ns == "shared")) ∧
    (∀ ns e, ns ∈ namespaces → ¬(ns = "UI" ∨ ns = "shared") →
      merge ns = Except.error e →
      ("Could not merge namespace " ++ ns ++ ": " ++ e) ∈
        (manage_namespaces merge namespaces).failures) :=
  ⟨manage_ns_attempted merge namespaces,
   fun ns e h1 h2 h3 => manage_ns_failures merge namespaces ns e h1 h2 h3⟩

/-- Claim C7 witness: on namespaces ["UI", "shared", "charA"] with a
merge call that raises on "charA", only "charA" is attempted and the
failure is logged. -/
theorem c7_manage_namespaces_witness :
    (manage_namespaces
        (fun ns => if ns = "charA" then Except.error "locked" else Except.ok ())
        ["UI", "shared", "charA"]).attempted =
      List.filter (fun ns => !(ns == "UI" || ns == "shared"))
        ["UI", "shared", "charA"] ∧
    ("Could not merge namespace " ++ "charA" ++ ": " ++ "locked") ∈
      (manage_namespaces
        (fun ns => if ns = "charA" then Except.error "locked" else Except.ok ())
        ["UI", "shared", "charA"]).failures :=
  ⟨(c7_manage_namespaces _ _).1,
   (c7_manage_namespaces _ _).2 "charA" "locked" (by decide) (by decide) rfl⟩

/-- Claim C8: `_export_rig` always issues the world-space reparent first,
always sets the same fixed option block — bake animation on over frames
1 to 60, triangulation off, skins on, input connections, constraints,
cameras and lights off, non-ASCII (binary) output with version
FBX202000 — and always writes to the fixed path C:/dropbox/your_file.fbx,
independently of the scene and of the selected rigs. -/
theorem c8_export_rig_fixed (s : Scene) (selected_rigs : List String) :
    (∀ s2 rigs2, export_rig s selected_rigs = export_rig s2 rigs2) ∧
    (export_rig s selected_rigs).head? = some ExportStep.parentToWorld ∧
    ExportStep.setOption "FBXExportBakeComplexAnimation" "true" ∈ export_rig s selected_rigs ∧
    ExportStep.setOption "FBXExportBakeComplexStart" "1" ∈ export_rig s selected_rigs ∧
    ExportStep.setOption "FBXExportBakeComplexEnd" "60" ∈ export_rig s selected_rigs ∧
    ExportStep.setOption "FBXExportTriangulate" "false" ∈ export_rig s selected_rigs ∧
    ExportStep.setOption "FBXExportSkins" "true" ∈ export_rig s selected_rigs ∧
    ExportStep.setOption "FBXExportInputConnections" "false" ∈ export_rig s selected_rigs ∧
    ExportStep.setOption "FBXExportConstraints" "false" ∈ export_rig s selected_rigs ∧
    ExportStep.setOption "FBXExportCameras" "false" ∈ export_rig s selected_rigs ∧
    ExportStep.setOption "FBXExportLights" "false" ∈ export_rig s selected_rigs ∧
    ExportStep.setOption "FBXExportInAscii" "false" ∈ export_rig s selected_rigs ∧
    ExportStep.setOption "FBXExportFileVersion" "FBX202000" ∈ export_rig s selected_rigs ∧
    ExportStep.writeFile "C:/dropbox/your_file.fbx" true true ∈ export_rig s selected_rigs := by
  have he : export_rig s selected_rigs =
      ExportStep.parentToWorld ::
        (fbx_export_options.map fun p => ExportStep.setOption p.1 p.2) ++
        [ExportStep.writeFile "C:/dropbox/your_file.fbx" true true] := rfl
  refine ⟨fun s2 rigs2 => rfl, ?_, ?_, ?_, ?_, ?_, ?_, ?_, ?_, ?_, ?_, ?_, ?_, ?_⟩ <;>
    rw [he] <;> decide

/-- Claim C10: with a non-empty template selection, `_create_rig` on an
instance carrying exactly the attributes the class ever assigns raises
AttributeError at the `self.rig_name.text()` read — "rig_name" is not
among the assigned attributes — for every name-field text and every
scene, so the duplicate-name check and the creation body (including its
final select) are never reached and no effect is performed. -/
theorem c10_create_rig_attribute_error (selected_items : List String)
    (name_field_text : String) (objExists : String → Bool)
    (hsel : selected_items ≠ []) :
    create_rig_handler mayaRigHandlerAttrs selected_items name_field_text objExists =
      (CreateRigOutcome.attributeError "rig_name", []) ∧
    "rig_name" ∉ mayaRigHandlerAttrs := by
  obtain ⟨a, t, rfl⟩ := List.exists_cons_of_ne_nil hsel
  refine ⟨?_, by decide⟩
  unfold create_rig_handler
  rw [if_neg (by simp), if_neg (by decide)]

/-- Claim C10 witness: a concrete non-empty selection with a filled name
field and an empty scene still yields the AttributeError outcome. -/
theorem c10_create_rig_witness :
    create_rig_handler mayaRigHandlerAttrs ["Hero_rig"] "NewGuy" (fun _ => false) =
      (CreateRigOutcome.attributeError "rig_name", []) ∧
    "rig_name" ∉ mayaRigHandlerAttrs :=
  c10_create_rig_attribute_error ["Hero_rig"] "NewGuy" (fun _ => false) (by decide)

/-! ## Concrete scenes used by counterexamples and witnesses -/

/-- A scene with no nodes at all. -/
def emptyScene : Scene :=
  { objExists := fun _ => false
    listConnections := fun _ => none
    listConnectionsJoint := fun _ => none
    childrenJoint := fun _ => none
    descJoints := fun _ => none
    descMeshes := fun _ => none
    parentOf := fun _ => none
    parentJoint := fun _ => none }

/-- A scene with no skeleton layer nodes whose rig has descendant joints
J_leaf, J_mid, J_root, of which only J_root has no joint parent. -/
def c1Scene : Scene :=
  { objExists := fun _ => false
    listConnections := fun _ => none
    listConnectionsJoint := fun _ => none
    childrenJoint := fun _ => none
    descJoints := fun n => if n == "rig" then some ["J_leaf", "J_mid", "J_root"] else none
    descMeshes := fun _ => none
    parentOf := fun _ => none
    parentJoint := fun j =>
      if j == "J_leaf" then some ["J_mid"]
      else if j == "J_mid" then some ["J_root"]
      else none }

/-- A scene whose geometry layer node rig_Meshes exists and whose untyped
connection listing on it is [rig_Meshes, pCube1, pCube1]: the layer node
itself first, then one node reported twice (one entry per connection, as
Maya's listConnections does). -/
def c4Scene : Scene :=
  { objExists := fun n => n == "rig_Meshes"
    listConnections := fun n =>
      if n == "rig_Meshes" then some ["rig_Meshes", "pCube1", "pCube1"] else none
    listConnectionsJoint := fun _ => none
    childrenJoint := fun _ => none
    descJoints := fun _ => none
    descMeshes := fun _ => none
    parentOf := fun _ => none
    parentJoint := fun _ => none }

/-- A scene with no layer nodes where two mesh shapes share one parent
transform geo1. -/
def c4WScene : Scene :=
  { objExists := fun _ => false
    listConnections := fun _ => none
    listConnectionsJoint := fun _ => none
    childrenJoint := fun _ => none
    descJoints := fun _ => none
    descMeshes := fun n => if n == "rig" then some ["shapeL", "shapeR"] else none
    parentOf := fun n =>
      if n == "shapeL" || n == "shapeR" then some ["geo1"] else none
    parentJoint := fun _ => none }

/-- A scene whose skeleton layer node rig_Skeleton exists and whose
joint-typed connection listing on it is [rig_Skeleton, J1, J2], the first
entry being the queried node itself. -/
def c5Scene : Scene :=
  { objExists := fun n => n == "rig_Skeleton"
    listConnections := fun _ => none
    listConnectionsJoint := fun n =>
      if n == "rig_Skeleton" then some ["rig_Skeleton", "J1", "J2"] else none
    childrenJoint := fun _ => none
    descJoints := fun _ => none
    descMeshes := fun _ => none
    parentOf := fun _ => none
    parentJoint := fun _ => none }

/-- A scene carrying a skeleton layer in both naming conventions
(rig:SKL_lyr for the AnimExporter variant, rig_Skeleton for the
MayaRigHandler variant), each listing connections [L, J1, J2]. -/
def c5WScene : Scene :=
  { objExists := fun n => n == "rig_Skeleton" || n == "rig:SKL_lyr"
    listConnections := fun n =>
      if n == "rig:SKL_lyr" then some ["L", "J1", "J2"] else none
    listConnectionsJoint := fun n =>
      if n == "rig_Skeleton" then some ["L", "J1", "J2"] else none
    childrenJoint := fun _ => none
    descJoints := fun _ => none
    descMeshes := fun _ => none
    parentOf := fun _ => none
    parentJoint := fun _ => none }

/-- A scene carrying the namespaced layer nodes rig:SKL_lyr and
rig:GEO_lyr, each connected to one further node. -/
def c9Scene : Scene :=
  { objExists := fun n => n == "rig:SKL_lyr" || n == "rig:GEO_lyr"
    listConnections := fun n =>
      if n == "rig:SKL_lyr" then some ["rig:SKL_lyr", "J1"]
      else if n == "rig:GEO_lyr" then some ["rig:GEO_lyr", "G1"] else none
    listConnectionsJoint := fun _ => none
    childrenJoint := fun _ => none
    descJoints := fun _ => none
    descMeshes := fun _ => none
    parentOf := fun _ => none
    parentJoint := fun _ => none }

/-- The AnimExporter `_process_rig` run on `c9Scene`, written out. -/
def c9AnimRun : ProcResult :=
  { skl_sel := ["J1"]
    geo_sel := ["G1"]
    final_sel := ["G1", "J1"]
    ok := true
    trace := [Effect.select ["rig:SKL_lyr"], Effect.select ["rig:GEO_lyr"],
              Effect.select ["G1", "J1"]]
    warnings := [] }

/-- The AnimExporter `_process_rig` run on `emptyScene`, written out. -/
def animEmptyRun : ProcResult :=
  { skl_sel := []
    geo_sel := []
    final_sel := []
    ok := false
    trace := []
    warnings := ["Warning: SKL_lyr not found for rig rig",
                 "Warning: GEO_lyr not found for rig rig",
                 "Warning: No objects found to select for rig"] }

/-- Claim C1, counterexample: on a scene satisfying the claim's premises
(no skeleton layer node under either convention, descendant joints
[J_leaf, J_mid, J_root] of which only J_root has no joint parent), the
AnimExporter `_process_rig` variant — one of the two implementations the
claim covers — keeps the entire descendant-joint listing as its skeleton
selection instead of returning exactly the root joint. -/
theorem c1_fallback_counterexample :
    process_rig_anim c1Scene "rig" =
      Except.ok { skl_sel := ["J_leaf", "J_mid", "J_root"], geo_sel := [],
                  final_sel := ["J_leaf", "J_mid", "J_root"], ok := true,
                  trace := [Effect.select ["J_leaf", "J_mid", "J_root"]],
                  warnings := ["Warning: SKL_lyr not found for rig rig",
                               "Warning: GEO_lyr not found for rig rig"] } ∧
    (["J_leaf", "J_mid", "J_root"] : List String) ≠ ["J_root"] ∧
    ((c1Scene.parentJoint "J_root").getD []).isEmpty = true ∧
    ((c1Scene.parentJoint "J_leaf").getD []).isEmpty = false ∧
    ((c1Scene.parentJoint "J_mid").getD []).isEmpty = false := by
  refine ⟨rfl, by decide, rfl, rfl, rfl⟩

/-- Claim C1 as amended: when no skeleton layer node exists and exactly
one descendant joint has no joint parent, the MayaRigHandler
`_process_rig` fallback returns exactly that joint as the skeleton root,
regardless of the order in which the facade enumerates the descendant
joints; the AnimExporter variant instead keeps the whole descendant-joint
listing (it performs no root selection). -/
theorem c1_fallback_root_amended (s : Scene) (rig_name j : String) (js : List String)
    (h1 : s.objExists (rig_name ++ "_Skeleton") = false)
    (h2 : s.objExists "_Skeleton" = false)
    (hjs : (s.descJoints rig_name).getD [] = js)
    (hmem : j ∈ js)
    (hj : ((s.parentJoint j).getD []).isEmpty = true)
    (huniq : ∀ x ∈ js, ((s.parentJoint x).getD []).isEmpty = true → x = j)
    (ha1 : s.objExists (rig_name ++ ":SKL_lyr") = false)
    (ha2 : s.objExists "SKL_lyr" = false) :
    (process_rig_handler s rig_name).skl_sel = [j] ∧
    anim_skl_sel s rig_name = js := by
  have hl : handlerSklLayer s rig_name = "_Skeleton" := by
    simp [handlerSklLayer, h1]
  have hroot : handler_root_joint s rig_name = some j := by
    unfold handler_root_joint
    simp only [hl, h2, h1, hjs, Bool.false_eq_true, if_false]
    exact find_eq_of_unique _ j _ (List.mem_reverse.mpr hmem) hj
      fun x hx hpx => huniq x (List.mem_reverse.mp hx) hpx
  constructor
  · rw [process_rig_handler_skl]
    simp [handler_skl_sel, hroot]
  · have hal : anim_skl_layer s rig_name = "SKL_lyr" := by
      simp [anim_skl_layer, ha1]
    unfold anim_skl_sel
    simp only [hal, ha2, Bool.false_eq_true, if_false, hjs]

/-- Claim C1 witness: on the concrete scene `c1Scene` the handler
fallback returns exactly J_root while the AnimExporter fallback returns
all three joints. -/
theorem c1_fallback_root_witness :
    (process_rig_handler c1Scene "rig").skl_sel = ["J_root"] ∧
    anim_skl_sel c1Scene "rig" = ["J_leaf", "J_mid", "J_root"] :=
  c1_fallback_root_amended c1Scene "rig" "J_root" ["J_leaf", "J_mid", "J_root"]
    rfl rfl rfl (by decide) rfl (by decide) rfl rfl

/-- Claim C4, counterexample: in the layer-connection geometry branch the
handler `_process_rig` returns `connections[1:]` verbatim with no set
insertion, so a node reported twice by the connection listing appears
twice in `geo_sel`. -/
theorem c4_geo_dup_counterexample :
    (process_rig_handler c4Scene "rig").geo_sel = ["pCube1", "pCube1"] ∧
    ¬ (process_rig_handler c4Scene "rig").geo_sel.Nodup := by
  refine ⟨rfl, by decide⟩

/-- Claim C4 as amended: the ExportMeshes-subgroup branch and the
full-hierarchy fallback branch deduplicate (their `geo_sel` carries no
duplicates), in both `_process_rig` variants; the layer-connection branch
returns the connection listing minus its first entry verbatim, without
deduplication. -/
theorem c4_geo_nodup_amended (s : Scene) (rig_name : String)
    (hg1 : s.objExists (rig_name ++ "_Meshes") = false)
    (hg2 : s.objExists "_Meshes" = false)
    (ha1 : s.objExists (rig_name ++ ":GEO_lyr") = false)
    (ha2 : s.objExists "GEO_lyr" = false) :
    (process_rig_handler s rig_name).geo_sel.Nodup ∧
    (∀ gs, anim_geo_sel s rig_name = Except.ok gs → gs.Nodup) := by
  have hl : handlerGeoLayer s rig_name = "_Meshes" := by
    simp [handlerGeoLayer, hg1]
  have hal : anim_geo_layer s rig_name = "GEO_lyr" := by
    simp [anim_geo_layer, ha1]
  constructor
  · rw [process_rig_handler_geo]
    unfold handler_geo_sel
    simp only [hl, hg2, Bool.false_eq_true, if_false]
    split
    · split
      · exact List.nodup_nil
      · exact List.nodup_dedup _
    · split
      · exact List.nodup_nil
      · exact List.nodup_dedup _
  · intro gs hgs
    unfold anim_geo_sel at hgs
    simp only [hal, ha2, Bool.false_eq_true, if_false] at hgs
    split at hgs
    · injection hgs with h
      rw [← h]
      exact List.nodup_nil
    · split at hgs
      · injection hgs with h
        rw [← h]
        exact List.nodup_dedup _
      · cases hgs

/-- Claim C4 witness: two mesh shapes sharing the parent transform geo1
resolve to a duplicate-free `geo_sel` in the fallback branches. -/
theorem c4_geo_nodup_witness :
    (process_rig_handler c4WScene "rig").geo_sel.Nodup ∧
    (["geo1"] : List String).Nodup :=
  ⟨(c4_geo_nodup_amended c4WScene "rig" rfl rfl rfl rfl).1,
   (c4_geo_nodup_amended c4WScene "rig" rfl rfl rfl rfl).2 ["geo1"] rfl⟩

/-- Claim C5, counterexample: when the skeleton layer node exists and the
joint-typed connection listing starts with the queried layer node itself,
the MayaRigHandler `_process_rig` — one of the two implementations the
claim covers — takes `connections[0]` without dropping it, so the
selected "root" is the layer node rig_Skeleton, not J1. -/
theorem c5_skl_branch_counterexample :
    (process_rig_handler c5Scene "rig").skl_sel = ["rig_Skeleton"] ∧
    (process_rig_handler c5Scene "rig").skl_sel ≠ ["J1"] := by
  refine ⟨rfl, by decide⟩

/-- Claim C5 as amended: with a connection listing [a, J1, J2, ...] on
the existing skeleton layer, the AnimExporter variant drops the first
entry and keeps the remainder (so the first of the remaining entries
leads its skeleton selection), while the MayaRigHandler variant takes the
first entry of its joint-typed listing as the root without dropping
anything. -/
theorem c5_skl_branch_amended (s : Scene) (rig_name a : String) (rest : List String)
    (hA : s.objExists (anim_skl_layer s rig_name) = true)
    (hAc : s.listConnections (anim_skl_layer s rig_name) = some (a :: rest))
    (hrest : rest ≠ [])
    (hH : s.objExists (handlerSklLayer s rig_name) = true)
    (hHc : s.listConnectionsJoint (handlerSklLayer s rig_name) = some (a :: rest)) :
    anim_skl_sel s rig_name = rest ∧
    handler_skl_sel s rig_name = [a] := by
  constructor
  · unfold anim_skl_sel
    rw [hA]
    simp only [if_true, hAc, Option.getD_some]
    rw [if_pos]
    · rfl
    · simp [Nat.lt_add_of_pos_left, List.length_pos.mpr hrest]
  · unfold handler_skl_sel handler_root_joint
    rw [hH]
    simp [hHc]

/-- Claim C5 witness: on `c5WScene` with connections [L, J1, J2] the
AnimExporter branch keeps [J1, J2] and the handler branch selects L. -/
theorem c5_skl_branch_witness :
    anim_skl_sel c5WScene "rig" = ["J1", "J2"] ∧
    handler_skl_sel c5WScene "rig" = ["L"] :=
  c5_skl_branch_amended c5WScene "rig" "L" ["J1", "J2"] rfl rfl (by decide) rfl rfl

/-- Canonical form of a successful AnimExporter `_process_rig` run: its
fields in terms of the section results. -/
theorem process_rig_anim_ok (s : Scene) (rig_name : String) (r : ProcResult)
    (hr : process_rig_anim s rig_name = Except.ok r) :
    ∃ gs, anim_geo_sel s rig_name = Except.ok gs ∧
      r.skl_sel = anim_skl_sel s rig_name ∧
      r.geo_sel = gs ∧
      r.final_sel = gs ++ anim_skl_sel s rig_name ∧
      r.ok = !(gs ++ anim_skl_sel s rig_name).isEmpty ∧
      r.trace = anim_disc_trace s rig_name ++
        (if (gs ++ anim_skl_sel s rig_name).isEmpty then []
         else [Effect.select (gs ++ anim_skl_sel s rig_name)]) ∧
      r.warnings = anim_warnings s rig_name ++
        (if (gs ++ anim_skl_sel s rig_name).isEmpty then
          ["Warning: No objects found to select for " ++ rig_name] else []) := by
  unfold process_rig_anim at hr
  rcases hge : anim_geo_sel s rig_name with e | gs
  · rw [hge] at hr
    cases hr
  · rw [hge] at hr
    refine ⟨gs, rfl, ?_⟩
    by_cases hE : (gs ++ anim_skl_sel s rig_name).isEmpty = true
    · simp only [hE, if_true] at hr
      injection hr with h2
      subst h2
      refine ⟨rfl, rfl, rfl, ?_, ?_, ?_⟩ <;> simp [hE]
    · have hEf : (gs ++ anim_skl_sel s rig_name).isEmpty = false := by
        simpa using hE
      simp only [hEf, Bool.false_eq_true, if_false] at hr
      injection hr with h2
      subst h2
      refine ⟨rfl, rfl, rfl, ?_, ?_, ?_⟩ <;> simp [hEf]

/-- Claim C6: in both `_process_rig` variants the final selection is the
geometry selection followed by the skeleton selection, and when that
combined list is empty the method prints the nothing-found warning and
returns False (issuing no select), instead of raising. -/
theorem c6_combined_selection (s : Scene) (rig_name : String) :
    ((process_rig_handler s rig_name).final_sel =
        (process_rig_handler s rig_name).geo_sel ++
          (process_rig_handler s rig_name).skl_sel) ∧
    ((process_rig_handler s rig_name).final_sel = [] →
        (process_rig_handler s rig_name).ok = false ∧
        (process_rig_handler s rig_name).trace = [] ∧
        ("Warning: No objects found to select for " ++ rig_name) ∈
          (process_rig_handler s rig_name).warnings) ∧
    (∀ r, process_rig_anim s rig_name = Except.ok r →
        r.final_sel = r.geo_sel ++ r.skl_sel ∧
        (r.final_sel = [] → r.ok = false ∧
          ("Warning: No objects found to select for " ++ rig_name) ∈ r.warnings)) := by
  refine ⟨?_, ?_, ?_⟩
  · rw [process_rig_handler_final, process_rig_handler_geo, process_rig_handler_skl]
  · intro h
    rw [process_rig_handler_final] at h
    have hE : (handler_geo_sel s rig_name ++ handler_skl_sel s rig_name).isEmpty = true := by
      simp [h]
    unfold process_rig_handler
    simp [hE]
  · intro r hr
    obtain ⟨gs, hge, hskl, hgeo, hfin, hok, htr, hw⟩ :=
      process_rig_anim_ok s rig_name r hr
    constructor
    · rw [hfin, hgeo, hskl]
    · intro h
      have hE : (gs ++ anim_skl_sel s rig_name).isEmpty = true := by
        rw [hfin] at h
        simp [h]
      constructor
      · rw [hok, hE]
        rfl
      · rw [hw]
        simp [hE]

/-- Claim C6 witness: on the empty scene both variants combine to the
empty list, return False, issue no select, and print the nothing-found
warning. -/
theorem c6_combined_selection_witness :
    ((process_rig_handler emptyScene "rig").ok = false ∧
     (process_rig_handler emptyScene "rig").trace = [] ∧
     ("Warning: No objects found to select for " ++ "rig") ∈
       (process_rig_handler emptyScene "rig").warnings) ∧
    (animEmptyRun.ok = false ∧
     ("Warning: No objects found to select for " ++ "rig") ∈ animEmptyRun.warnings) :=
  ⟨(c6_combined_selection emptyScene "rig").2.1 rfl,
   ((c6_combined_selection emptyScene "rig").2.2 animEmptyRun rfl).2 rfl⟩

/-- Claim C9, counterexample: the AnimExporter `_process_rig`, on a scene
where both layer nodes exist, issues a select of each layer node during
discovery before the final select, so its select trace is not the single
final selection. -/
theorem c9_select_trace_counterexample :
    ¬ (∀ r, process_rig_anim c9Scene "rig" = Except.ok r →
        r.trace = [Effect.select r.final_sel]) := by
  intro h
  have h2 := h c9AnimRun rfl
  exact absurd h2 (by decide)

/-- Every discovery-phase effect of the AnimExporter `_process_rig` is a
select of a layer node. -/
theorem anim_disc_trace_selects (s : Scene) (rig_name : String) :
    ∀ e ∈ anim_disc_trace s rig_name, ∃ nodes, e = Effect.select nodes := by
  intro e he
  unfold anim_disc_trace at he
  rcases List.mem_append.mp he with h | h
  · split at h
    · simp at h
      exact ⟨_, h⟩
    · cases h
  · split at h
    · simp at h
      exact ⟨_, h⟩
    · cases h

/-- Claim C9 as amended: neither `_process_rig` variant mutates the scene
graph (both traces consist of select effects only); the MayaRigHandler
variant issues exactly the single final select (or none when nothing was
found), while the AnimExporter variant additionally issues one discovery
select per existing layer node before the final select. -/
theorem c9_select_trace_amended (s : Scene) (rig_name : String) :
    ((process_rig_handler s rig_name).trace =
      if (process_rig_handler s rig_name).final_sel = [] then []
      else [Effect.select (process_rig_handler s rig_name).final_sel]) ∧
    (∀ r, process_rig_anim s rig_name = Except.ok r →
      r.trace = anim_disc_trace s rig_name ++
        (if r.final_sel = [] then [] else [Effect.select r.final_sel]) ∧
      ∀ e ∈ r.trace, ∃ nodes, e = Effect.select nodes) := by
  constructor
  · by_cases hE : (handler_geo_sel s rig_name ++ handler_skl_sel s rig_name).isEmpty = true
    · have hnil : handler_geo_sel s rig_name ++ handler_skl_sel s rig_name = [] :=
        List.isEmpty_iff.mp hE
      unfold process_rig_handler
      simp [hE, hnil]
    · have hne : ¬ handler_geo_sel s rig_name ++ handler_skl_sel s rig_name = [] := by
        simpa [List.isEmpty_iff] using hE
      unfold process_rig_handler
      simp [hE, hne]
  · intro r hr
    obtain ⟨gs, hge, hskl, hgeo, hfin, hok, htr, hw⟩ :=
      process_rig_anim_ok s rig_name r hr
    constructor
    · rw [htr, hfin]
      by_cases hE : gs ++ anim_skl_sel s rig_name = []
      · simp [hE]
      · have hEf : (gs ++ anim_skl_sel s rig_name).isEmpty = false := by
          simpa [List.isEmpty_iff] using hE
        simp [hE, hEf]
    · intro e he
      rw [htr] at he
      rcases List.mem_append.mp he with h | h
      · exact anim_disc_trace_selects s rig_name e h
      · by_cases hE : (gs ++ anim_skl_sel s rig_name).isEmpty = true
        · rw [if_pos hE] at h
          cases h
        · rw [if_neg hE] at h
          simp at h
          exact ⟨_, h⟩

/-- Claim C9 witness: on `c9Scene` the handler trace is empty (nothing
found on that scene under its naming convention) and the AnimExporter
trace is its two discovery selects followed by the final select. -/
theorem c9_select_trace_witness :
    ((process_rig_handler c9Scene "rig").trace =
      if (process_rig_handler c9Scene "rig").final_sel = [] then []
      else [Effect.select (process_rig_handler c9Scene "rig").final_sel]) ∧
    c9AnimRun.trace = anim_disc_trace c9Scene "rig" ++
      (if c9AnimRun.final_sel = [] then [] else [Effect.select c9AnimRun.final_sel]) :=
  ⟨(c9_select_trace_amended c9Scene "rig").1,
   ((c9_select_trace_amended c9Scene "rig").2 c9AnimRun rfl).1⟩

end MayaTools
